import Mathlib

/-!
Shallow embedding of `testcontainer-go` (files `container.go`, `docker.go`,
`reaper.go`) and proofs about the claims of its specification.

Go maps are embedded as association lists `List (String × String)`; where the
Go code *iterates* over a map (an order the Go runtime leaves unspecified) the
iteration sequence is passed in explicitly as a list, and claims about "the
same mapping" quantify over permutations of that list.  Effectful calls into
the Docker runtime client (an external collaborator) are passed in as explicit
result parameters.  Go panics are modelled as `Option.none`.
-/

namespace Testcontainer

/-! ## Constants (reaper.go, lines 16-20) -/

def TestcontainerLabel : String := "org.testcontainers.golang"

def TestcontainerLabelSessionID : String := TestcontainerLabel ++ ".sessionId"

def ReaperDefaultImage : String := "quay.io/testcontainers/ryuk:0.2.2"

/-! ## Data model -/

/-- `mount.Mount` from the Docker SDK, restricted to the fields this repository
sets.  Go's zero value for `ReadOnly` is `false`, so an unset field means
read-write. -/
structure Mount where
  type : String
  source : String
  target : String
  readOnly : Bool
deriving DecidableEq, Repr

/-- `nat.Port` (e.g. `"8080/tcp"`): `k.Port()` returns the `port` field. -/
structure PortKey where
  port : String
  proto : String
deriving DecidableEq, Repr

/-- `nat.PortBinding`. -/
structure PortBinding where
  hostIP : String
  hostPort : String
deriving DecidableEq, Repr

/-- `types.ContainerJSON`, restricted to the fields read by this repository:
`Config.ExposedPorts`, `NetworkSettings.IPAddress`, `NetworkSettings.Ports`. -/
structure ContainerJSON where
  configExposedPorts : List PortKey
  ipAddress : String
  ports : List (PortKey × List PortBinding)
deriving DecidableEq, Repr

/-- `ContainerRequest` from container.go.  `env` is the request mapping as an
association list (keys unique); `WaitingFor` is an opaque collaborator and is
omitted (no claim mentions it). -/
structure ContainerRequest where
  image : String := ""
  env : List (String × String) := []
  exportedPort : List String := []
  cmd : String := ""
  labels : List (String × String) := []
  registryCred : String := ""
  mounts : List Mount := []
deriving DecidableEq, Repr

/-- `DockerContainer` from docker.go, restricted to the fields the claims
touch: the runtime ID, the session ID and the inspect cache `raw`. -/
structure DockerContainer where
  id : String
  sessionID : String
  raw : Option ContainerJSON
deriving DecidableEq, Repr

/-- `container.Config` as assembled by `CreateContainer` (docker.go 154-163).
`cmd = none` models the field being left unset. -/
structure ContainerConfig where
  image : String
  env : List String
  exposedPorts : List PortKey
  labels : List (String × String)
  cmd : Option (List String)
deriving DecidableEq, Repr

/-! ## Label scheme (reaper.go, `GetLabels`, lines 108-113) -/

/-- `Reaper.GetLabels`: the two-entry label map, keyed by the marker key and
the session key.  As a mapping the two keys are distinct, so the association
list is a faithful embedding. -/
def GetLabels (sessionID : String) : List (String × String) :=
  [(TestcontainerLabel, "true"), (TestcontainerLabelSessionID, sessionID)]

/-! ## CreateContainer data flow (docker.go, lines 137-206) -/

/-- The environment list built at docker.go 143-146: one `key=value` entry per
pair of the map, in the order Go's `range` happens to deliver them.  `envIter`
is that iteration sequence. -/
def buildEnv (envIter : List (String × String)) : List String :=
  envIter.map fun kv => kv.1 ++ "=" ++ kv.2

/-- `strings.Split(s, " ")` on the character list of `s`: split on every
single space character, keeping empty fields, as Go does for a one-character
non-empty separator. -/
def goSplitSpaceAux : List Char → List (List Char)
  | [] => [[]]
  | c :: cs =>
    if c = ' ' then [] :: goSplitSpaceAux cs
    else
      match goSplitSpaceAux cs with
      | [] => [[c]]
      | t :: ts => (c :: t) :: ts

/-- `strings.Split(s, " ")` (docker.go 162). -/
def goSplitSpace (s : String) : List String :=
  (goSplitSpaceAux s.data).map List.asString

/-- The `container.Config` value assembled at docker.go 154-163:
labels are `r.GetLabels()` for the reaper of this call's session (request
labels do not appear); `Cmd` is set only when `req.Cmd` is non-empty, to the
space-split of `req.Cmd`. -/
def buildConfig (req : ContainerRequest) (envIter : List (String × String))
    (sessionID : String) (exposedPortSet : List PortKey) : ContainerConfig :=
  let base : ContainerConfig :=
    { image := req.image
      env := buildEnv envIter
      exposedPorts := exposedPortSet
      labels := GetLabels sessionID
      cmd := none }
  if req.cmd ≠ "" then { base with cmd := some (goSplitSpace req.cmd) } else base

/-- A `DockerProvider` together with its source of fresh UUIDs: `supply` is the
stream of values `uuid.NewV4()` returns, `next` the index of the next draw.
Collision resistance of v4 UUIDs is the assumption that `supply` never repeats
a value. -/
structure ProviderState where
  supply : Nat → String
  next : Nat

/-- The `sessionID := uuid.NewV4()` draw at docker.go 148: one fresh value per
`CreateContainer` call. -/
def drawSession (st : ProviderState) : String × ProviderState :=
  (st.supply st.next, { st with next := st.next + 1 })

/-- One successful `CreateContainer` call (docker.go 137-206), restricted to
its pure data flow: draw the session id, build the config, wrap the
runtime-assigned `newID` into a `DockerContainer` whose inspect cache starts
empty.  Returns the handle, the config handed to `ContainerCreate`, the drawn
session id and the successor provider state. -/
def createContainerStep (st : ProviderState) (req : ContainerRequest)
    (envIter : List (String × String)) (exposedPortSet : List PortKey)
    (newID : String) :
    DockerContainer × ContainerConfig × String × ProviderState :=
  let (sessionID, st') := drawSession st
  let cfg := buildConfig req envIter sessionID exposedPortSet
  ({ id := newID, sessionID := sessionID, raw := none }, cfg, sessionID, st')

/-! ## Container handle operations (docker.go, lines 33-130) -/

/-- `inspectContainer` (docker.go 83-93).  `live` is the result the runtime's
`ContainerInspect` would return if called now.  If the cache `raw` is
populated it is returned and the runtime is not consulted; otherwise the live
result is stored in the cache.  The mutated handle is returned alongside. -/
def inspectContainer (c : DockerContainer) (live : Except String ContainerJSON) :
    Except String (ContainerJSON × DockerContainer) :=
  match c.raw with
  | some r => .ok (r, c)
  | none =>
    match live with
    | .error e => .error e
    | .ok j => .ok (j, { c with raw := some j })

/-- `GetPorts` (docker.go 38-44): the exposed ports of the inspect result. -/
def GetPorts (c : DockerContainer) (live : Except String ContainerJSON) :
    Except String (List PortKey × DockerContainer) :=
  match inspectContainer c live with
  | .error e => .error e
  | .ok (j, c') => .ok (j.configExposedPorts, c')

/-- `GetIPAddress` (docker.go 96-102): the IP address of the inspect result. -/
def GetIPAddress (c : DockerContainer) (live : Except String ContainerJSON) :
    Except String (String × DockerContainer) :=
  match inspectContainer c live with
  | .error e => .error e
  | .ok (j, c') => .ok (j.ipAddress, c')

/-- The loop of `GetMappedPort` (docker.go 52-57) over
`inspect.NetworkSettings.Ports`, given in the map's iteration order: on the
first key whose `Port()` equals `strconv.Itoa(port)` the code returns
`p[0].HostPort` — an index into `p` taken without a length check, so a
matching entry with an empty binding list is a runtime panic, modelled as
`none`.  When no key matches, the sentinel `"0"`. -/
def getMappedPortScan (ports : List (PortKey × List PortBinding)) (port : Nat) :
    Option String :=
  match ports with
  | [] => some "0"
  | (k, p) :: rest =>
    if k.port = toString port then (p.head?).map PortBinding.hostPort
    else getMappedPortScan rest port

/-- `GetMappedPort` (docker.go 46-58): inspect (through the cache), then scan
the port map.  `none` models the panic of `p[0]` on an empty binding list. -/
def GetMappedPort (c : DockerContainer) (live : Except String ContainerJSON)
    (port : Nat) : Option (Except String (String × DockerContainer)) :=
  match inspectContainer c live with
  | .error e => some (.error e)
  | .ok (j, c') =>
    (getMappedPortScan j.ports port).map fun s => .ok (s, c')

/-! ## RunContainer (docker.go, lines 209-220) -/

/-- `errors.Wrap(err, msg)` of github.com/pkg/errors: the message becomes
`msg ++ ": " ++ err`. -/
def errorsWrap (err msg : String) : String := msg ++ ": " ++ err

/-- `RunContainer` (docker.go 209-220).  `createRes` is the outcome of
`CreateContainer`, `start` the outcome `c.Start(ctx)` would have on the
created handle.  The Go function returns a `(Container, error)` pair; both
components are kept, since after a failed `Start` both are non-nil. -/
def RunContainer (createRes : Except String DockerContainer)
    (start : DockerContainer → Except String Unit) :
    Option DockerContainer × Option String :=
  match createRes with
  | .error e => (none, some e)
  | .ok c =>
    match start c with
    | .error e => (some c, some (errorsWrap e "could not start container"))
    | .ok _ => (some c, none)

/-! ## Port-spec parsing (external collaborator `nat.ParsePortSpecs`) -/

/-- `nat.ParsePortSpecs(specs)` of docker/go-connections, an external
collaborator: it folds each spec string into an exposed-port set and a
host-binding map.  The per-spec parse `parseOne` is left abstract; the only
structure this repository relies on here is that an empty spec list yields an
empty set and an empty map. -/
def parsePortSpecs
    (parseOne : String → List PortKey × List (PortKey × List PortBinding)) :
    List String → List PortKey × List (PortKey × List PortBinding)
  | [] => ([], [])
  | s :: rest =>
    let (ks, bs) := parseOne s
    let (ks', bs') := parsePortSpecs parseOne rest
    (ks ++ ks', bs ++ bs')

/-! ## GetHostEndpoint (docker.go, lines 105-130) -/

/-- `GetHostEndpoint` (docker.go 105-130): inspect through the cache, parse
the port argument (the parse result `portSet`, a set the Go code ranges over,
is passed in its iteration order), then look the first parsed port up in
`NetworkSettings.Ports`; a missing entry or an empty binding list is a
not-found error; otherwise `hostIP:hostPort` of the first binding. -/
def GetHostEndpoint (c : DockerContainer) (live : Except String ContainerJSON)
    (portArg : String) (portSet : List PortKey) :
    Except String (String × DockerContainer) :=
  match inspectContainer c live with
  | .error e => .error e
  | .ok (j, c') =>
    match portSet with
    | [] => .error ("port " ++ portArg ++ " not found")
    | p :: _ =>
      match j.ports.lookup p with
      | none => .error ("port " ++ portArg ++ " not found")
      | some [] => .error ("port " ++ portArg ++ " not found")
      | some (b :: _) => .ok (b.hostIP ++ ":" ++ b.hostPort, c')

/-! ## Reaper construction (reaper.go, lines 26-62) -/

structure Reaper where
  sessionID : String
  endpoint : String
deriving DecidableEq, Repr

/-- The `ContainerRequest` built by `NewReaper` (reaper.go 38-48): the pinned
sidecar image, the session's labels, and a bind mount of the host's Docker
control socket.  Every other field keeps its Go zero value — in particular
`ExportedPort` is nil: the request publishes no port. -/
def reaperRequest (sessionID : String) : ContainerRequest :=
  { image := ReaperDefaultImage
    labels := GetLabels sessionID
    mounts := [{ type := "bind"
                 source := "/var/run/docker.sock"
                 target := "/var/run/docker.sock"
                 readOnly := false }] }

/-- `NewReaper` (reaper.go 32-62).  `runC` is the provider's `RunContainer`
(given as `Except`, which is faithful here because `NewReaper` checks the
error first and uses the handle only when the error is nil), `hostEndpoint`
the outcome of `c.GetHostEndpoint(ctx, "8080")` on the returned handle.  On
success the resolved endpoint is stored on the reaper. -/
def NewReaper (sessionID : String)
    (runC : ContainerRequest → Except String DockerContainer)
    (hostEndpoint : DockerContainer → Except String String) :
    Except String Reaper :=
  match runC (reaperRequest sessionID) with
  | .error e => .error e
  | .ok c =>
    match hostEndpoint c with
    | .error e => .error e
    | .ok ep => .ok { sessionID := sessionID, endpoint := ep }

/-! ## Reaper Connect handshake (reaper.go, lines 64-106) -/

/-- The filter written at reaper.go 76-79 and 89: the `label=<k>=<v>` clauses
of the labels map (in its iteration order), joined by `&`.  Note the write is
`sock.WriteString(strings.Join(labelFilters, "&"))` — nothing appends a
newline. -/
def labelFilterLine (labelsIter : List (String × String)) : String :=
  String.intercalate "&" (labelsIter.map fun kv => "label=" ++ kv.1 ++ "=" ++ kv.2)

/-- `bufio.ReadString('\n')` on the characters available to one read: the
prefix up to and including the first newline when one is present (nil error),
otherwise a read error (EOF before delimiter). -/
def readStringNl : List Char → Option (List Char)
  | [] => none
  | c :: cs =>
    if c = '\n' then some [c]
    else (readStringNl cs).map (c :: ·)

/-- The I/O behaviour of one handshake attempt: whether `Flush` succeeds, and
the bytes the subsequent `ReadString` would see. -/
structure Attempt where
  flushOk : Bool
  recv : String

/-- Outcome of the watcher goroutine of `Connect` (reaper.go 72-104): either
it exhausted its retries, printed the zombie-container warning and returned,
or it received `ACK`, broke out of the loop and blocks on the termination
signal.  Each constructor records how many attempts were consumed. -/
inductive WatchOutcome where
  | gaveUp (attemptsUsed : Nat)
  | awaitingTermination (attemptsUsed : Nat)
deriving DecidableEq, Repr

def WatchOutcome.attempts : WatchOutcome → Nat
  | .gaveUp n => n
  | .awaitingTermination n => n

/-- The retry loop at reaper.go 81-101: while `retryLimit > 0`, consume one
attempt; a flush failure or read failure retries; a response equal to the
3-byte literal `ACK` breaks; any other response retries.  `io n` is the
behaviour of attempt number `n`. -/
def connectLoop (io : Nat → Attempt) : Nat → Nat → WatchOutcome
  | 0, used => .gaveUp used
  | limit + 1, used =>
    if !(io used).flushOk then connectLoop io limit (used + 1)
    else
      match readStringNl (io used).recv.data with
      | none => connectLoop io limit (used + 1)
      | some respChars =>
        if respChars.asString = "ACK" then .awaitingTermination (used + 1)
        else connectLoop io limit (used + 1)

/-- `Connect` (reaper.go 65-106): dialing failure is the only error returned
to the caller; on a successful dial the watcher runs with `retryLimit = 3`
and its outcome never becomes an error of `Connect`. -/
def Connect (endpoint : String) (dial : Except String Unit) (io : Nat → Attempt) :
    Except String WatchOutcome :=
  match dial with
  | .error e => .error (errorsWrap e ("Connecting to Ryuk on " ++ endpoint ++ " failed"))
  | .ok _ => .ok (connectLoop io 3 0)

/-- A concrete inspect result, used to evaluate the handle operations on a
specific container. -/
def sampleInspect : ContainerJSON :=
  { configExposedPorts := [⟨"80", "tcp"⟩]
    ipAddress := "172.17.0.2"
    ports := [(⟨"80", "tcp"⟩, [⟨"0.0.0.0", "32768"⟩])] }

/-! ## Helper lemmas -/

theorem lookup_GetLabels_session (sid : String) :
    (GetLabels sid).lookup TestcontainerLabelSessionID = some sid := rfl

theorem lookup_GetLabels_marker (sid : String) :
    (GetLabels sid).lookup TestcontainerLabel = some "true" := rfl

theorem buildConfig_labels (req : ContainerRequest) (env : List (String × String))
    (sid : String) (eps : List PortKey) :
    (buildConfig req env sid eps).labels = GetLabels sid := by
  unfold buildConfig
  split <;> rfl

theorem buildConfig_cmd_empty (req : ContainerRequest) (env : List (String × String))
    (sid : String) (eps : List PortKey) (h : req.cmd = "") :
    (buildConfig req env sid eps).cmd = none := by
  unfold buildConfig
  rw [if_neg]
  simp [h]

theorem buildConfig_cmd_nonempty (req : ContainerRequest) (env : List (String × String))
    (sid : String) (eps : List PortKey) (h : req.cmd ≠ "") :
    (buildConfig req env sid eps).cmd = some (goSplitSpace req.cmd) := by
  unfold buildConfig
  rw [if_pos h]

theorem goSplitSpaceAux_no_space (l : List Char) (piece : List Char)
    (h : piece ∈ goSplitSpaceAux l) : ¬ ' ' ∈ piece := by
  induction l generalizing piece with
  | nil =>
    simp only [goSplitSpaceAux, List.mem_singleton] at h
    subst h; simp
  | cons c cs ih =>
    simp only [goSplitSpaceAux] at h
    split at h
    · rcases List.mem_cons.mp h with h | h
      · subst h; simp
      · exact ih piece h
    · rename_i hc
      split at h
      · rcases List.mem_singleton.mp h with rfl
        simp only [List.mem_singleton]
        intro hsp
        exact hc hsp.symm
      · rename_i t ts heq
        rcases List.mem_cons.mp h with rfl | h
        · intro hsp
          rcases List.mem_cons.mp hsp with hsp | hsp
          · exact hc hsp.symm
          · exact ih t (heq ▸ List.mem_cons_self t ts) hsp
        · exact ih piece (heq ▸ List.mem_cons_of_mem t h)

theorem goSplitSpace_no_space (s : String) (arg : String)
    (h : arg ∈ goSplitSpace s) : ¬ ' ' ∈ arg.data := by
  simp only [goSplitSpace, List.mem_map] at h
  obtain ⟨l, hl, rfl⟩ := h
  exact goSplitSpaceAux_no_space s.data l hl

theorem connectLoop_attempts_le (io : Nat → Attempt) (limit used : Nat) :
    (connectLoop io limit used).attempts ≤ used + limit := by
  induction limit generalizing used with
  | zero => simp [connectLoop, WatchOutcome.attempts]
  | succ n ih =>
    simp only [connectLoop]
    split
    · have h := ih (used + 1); omega
    · split
      · have h := ih (used + 1); omega
      · split
        · simp only [WatchOutcome.attempts]; omega
        · have h := ih (used + 1); omega

theorem connectLoop_never_reply (io : Nat → Attempt)
    (h : ∀ n, readStringNl (io n).recv.data = none) (limit used : Nat) :
    connectLoop io limit used = .gaveUp (used + limit) := by
  induction limit generalizing used with
  | zero => simp [connectLoop]
  | succ n ih =>
    have harith : used + 1 + n = used + (n + 1) := by omega
    simp only [connectLoop]
    split
    · rw [ih, harith]
    · rw [h used, ih, harith]

/-! ## Claim theorems -/

/-- C1, counterexample: the claim says two containers created by the same
`DockerProvider` carry equal session-ownership label values.  In the code
`uuid.NewV4()` is drawn inside `CreateContainer` (docker.go 148), so two
successive calls on the same provider (here with the fresh-UUID supply
`fun n => toString n`) attach different session-ownership label values. -/
theorem C1_same_provider_counterexample :
    (createContainerStep ⟨fun n => toString n, 0⟩ {} [] [] "c1").2.1.labels.lookup
        TestcontainerLabelSessionID ≠
    (createContainerStep (createContainerStep ⟨fun n => toString n, 0⟩ {} [] [] "c1").2.2.2
        {} [] [] "c2").2.1.labels.lookup TestcontainerLabelSessionID := by
  decide

/-- C1, amended: the session identifier is generated once per
`CreateContainer` call, not once per provider instance.  Two calls on the same
provider draw distinct fresh values and hence attach distinct
session-ownership label values; within one call, the container's label map and
the reaper sidecar's request labels coincide, so the resources of one call
share the session value. -/
theorem C1_session_fresh_per_call (st : ProviderState) (req1 req2 : ContainerRequest)
    (env1 env2 : List (String × String)) (eps1 eps2 : List PortKey) (id1 id2 : String)
    (c1 c2 : DockerContainer) (cfg1 cfg2 : ContainerConfig) (s1 s2 : String)
    (st1 st2 : ProviderState)
    (h1 : createContainerStep st req1 env1 eps1 id1 = (c1, cfg1, s1, st1))
    (h2 : createContainerStep st1 req2 env2 eps2 id2 = (c2, cfg2, s2, st2))
    (hfresh : st.supply st.next ≠ st.supply (st.next + 1)) :
    c1.sessionID ≠ c2.sessionID ∧
    cfg1.labels.lookup TestcontainerLabelSessionID = some c1.sessionID ∧
    cfg2.labels.lookup TestcontainerLabelSessionID = some c2.sessionID ∧
    (reaperRequest c1.sessionID).labels = cfg1.labels := by
  simp only [createContainerStep, drawSession, Prod.mk.injEq] at h1 h2
  obtain ⟨hc1, hcfg1, -, hst1⟩ := h1
  obtain ⟨hc2, hcfg2, -, -⟩ := h2
  subst hc1 hcfg1 hst1 hc2 hcfg2
  refine ⟨by simpa using hfresh, ?_, ?_, ?_⟩
  · rw [buildConfig_labels]; exact lookup_GetLabels_session _
  · rw [buildConfig_labels]; exact lookup_GetLabels_session _
  · rw [buildConfig_labels]; rfl

/-- C1, witness for the amended theorem, at the supply `fun n => toString n`
starting from index 0: the two calls draw "0" and "1". -/
theorem C1_session_fresh_per_call_witness :
    ({ id := "c1", sessionID := "0", raw := none } : DockerContainer).sessionID ≠
      ({ id := "c2", sessionID := "1", raw := none } : DockerContainer).sessionID ∧
    (buildConfig {} [] "0" []).labels.lookup TestcontainerLabelSessionID =
      some ({ id := "c1", sessionID := "0", raw := none } : DockerContainer).sessionID ∧
    (buildConfig {} [] "1" []).labels.lookup TestcontainerLabelSessionID =
      some ({ id := "c2", sessionID := "1", raw := none } : DockerContainer).sessionID ∧
    (reaperRequest ({ id := "c1", sessionID := "0", raw := none } : DockerContainer).sessionID).labels =
      (buildConfig {} [] "0" []).labels :=
  C1_session_fresh_per_call ⟨fun n => toString n, 0⟩ {} {} [] [] [] [] "c1" "c2"
    { id := "c1", sessionID := "0", raw := none } { id := "c2", sessionID := "1", raw := none }
    (buildConfig {} [] "0" []) (buildConfig {} [] "1" []) "0" "1"
    ⟨fun n => toString n, 1⟩ ⟨fun n => toString n, 2⟩ rfl rfl (by decide)

/-- C2, code bug: the handshake write at reaper.go 89 appends no trailing
newline to the filter line, and the acknowledgement comparison at reaper.go 98
tests the `ReadString('\n')` result — which on a nil error still contains the
delimiter — against the bare literal `ACK`, so even a sidecar that answers the
acknowledgement line `"ACK\n"` on every attempt never satisfies the
comparison and the watcher exhausts its retries and gives up. -/
theorem C2_handshake_never_succeeds :
    (¬ '\n' ∈ (labelFilterLine (GetLabels "abc")).data) ∧
    readStringNl ("ACK\n".data) = some ("ACK\n".data) ∧
    ("ACK\n" : String) ≠ "ACK" ∧
    Connect "10.0.0.1:32768" (.ok ()) (fun _ => ⟨true, "ACK\n"⟩) = .ok (.gaveUp 3) :=
  ⟨by decide, by decide, by decide, rfl⟩

/-- C3, code bug: the request `NewReaper` builds (reaper.go 38-48) bind-mounts
the Docker control socket but leaves `ExportedPort` at its nil zero value, so
the create call receives an empty exposed-port set and an empty host-binding
map — no control port is published — while `NewReaper` itself then asks
`GetHostEndpoint` for port 8080, which fails with a not-found error on a
container with no published ports, and that error propagates out of
`NewReaper`.  (When the endpoint lookup does succeed, its value is stored on
the reaper, the part of the claim that matches the code.) -/
theorem C3_reaper_port_not_published :
    (∀ sid : String, (reaperRequest sid).exportedPort = []) ∧
    (∀ (parseOne : String → List PortKey × List (PortKey × List PortBinding)) (sid : String),
      parsePortSpecs parseOne (reaperRequest sid).exportedPort = ([], [])) ∧
    (reaperRequest "abc").mounts =
      [⟨"bind", "/var/run/docker.sock", "/var/run/docker.sock", false⟩] ∧
    GetHostEndpoint ⟨"rid", "abc", some ⟨[], "", []⟩⟩ (.ok ⟨[], "", []⟩) "8080"
      [⟨"8080", "tcp"⟩] = .error "port 8080 not found" ∧
    NewReaper "abc" (fun _ => .ok ⟨"rid", "abc", none⟩)
      (fun _ => .error "port 8080 not found") = .error "port 8080 not found" ∧
    (∀ sid ep : String, NewReaper sid (fun _ => .ok ⟨"rid", sid, none⟩)
      (fun _ => .ok ep) = .ok ⟨sid, ep⟩) :=
  ⟨fun _ => rfl, fun _ _ => rfl, rfl, rfl, rfl, fun _ _ => rfl⟩

/-- C4: after a successful dial the handshake loop makes at most 3 attempts
for every I/O behaviour (each flush failure, read failure or
non-acknowledgement response consumes one attempt), the watcher's outcome is
never surfaced as an error of `Connect`, and for a sidecar that never replies
(every read misses its newline delimiter) the watcher gives up — printing the
warning, modelled by the `gaveUp` outcome — after exactly 3 attempts. -/
theorem C4_retry_bounded_and_soft (ep : String) (io : Nat → Attempt)
    (hnever : ∀ n, readStringNl (io n).recv.data = none) :
    (∀ io2 : Nat → Attempt, ∃ o : WatchOutcome,
      Connect ep (.ok ()) io2 = .ok o ∧ o.attempts ≤ 3) ∧
    Connect ep (.ok ()) io = .ok (.gaveUp 3) := by
  constructor
  · intro io2
    exact ⟨connectLoop io2 3 0, rfl, connectLoop_attempts_le io2 3 0⟩
  · have h := connectLoop_never_reply io hnever 3 0
    show Except.ok (connectLoop io 3 0) = Except.ok (WatchOutcome.gaveUp 3)
    rw [h]

/-- C4, witness: a sidecar whose connection yields no bytes at all. -/
theorem C4_retry_bounded_and_soft_witness :
    Connect "10.0.0.1:32768" (.ok ()) (fun _ => ⟨true, ""⟩) = .ok (.gaveUp 3) :=
  (C4_retry_bounded_and_soft "10.0.0.1:32768" (fun _ => ⟨true, ""⟩) (fun _ => rfl)).2

/-- C5, code bug: `GetMappedPort` is not total on exposed-but-unbound ports.
When the port map has no entry whose number matches, the sentinel `"0"` is
returned, and a bound port returns its first host binding; but when the
matching entry exists with an empty binding list the code indexes `p[0]` of an
empty slice (docker.go 54), a runtime panic, modelled as `none`. -/
theorem C5_empty_binding_panics :
    getMappedPortScan [(⟨"8080", "tcp"⟩, [])] 8080 = none ∧
    GetMappedPort ⟨"cid", "sid", some ⟨[⟨"8080", "tcp"⟩], "ip", [(⟨"8080", "tcp"⟩, [])]⟩⟩
      (.ok ⟨[], "", []⟩) 8080 = none ∧
    getMappedPortScan [(⟨"9090", "tcp"⟩, [⟨"0.0.0.0", "32768"⟩])] 8080 = some "0" ∧
    getMappedPortScan [(⟨"8080", "tcp"⟩, [⟨"0.0.0.0", "32768"⟩])] 8080 = some "32768" :=
  ⟨rfl, rfl, rfl, rfl⟩

/-- C6, counterexample: the claim says request-supplied labels are merged
additively into the labels attached at creation.  The config built at
docker.go 158 sets `Labels: r.GetLabels()` and never consults `req.Labels`,
so a request label `foo ↦ bar` is absent from the attached labels. -/
theorem C6_request_labels_dropped :
    ({ labels := [("foo", "bar")] } : ContainerRequest).labels.lookup "foo" = some "bar" ∧
    (buildConfig { labels := [("foo", "bar")] } [] "sid1" []).labels.lookup "foo" = none :=
  ⟨rfl, rfl⟩

/-- C6, amended: the labels attached at creation are exactly the session's
label-scheme output — request-supplied labels are discarded, not merged — so
the managed-by marker and the session-ownership key are always present and
trivially never overridden. -/
theorem C6_labels_exactly_session (req : ContainerRequest) (env : List (String × String))
    (sid : String) (eps : List PortKey) :
    (buildConfig req env sid eps).labels = GetLabels sid ∧
    (buildConfig req env sid eps).labels.lookup TestcontainerLabel = some "true" ∧
    (buildConfig req env sid eps).labels.lookup TestcontainerLabelSessionID = some sid := by
  refine ⟨buildConfig_labels req env sid eps, ?_, ?_⟩ <;>
    rw [buildConfig_labels req env sid eps]
  · exact lookup_GetLabels_marker sid
  · exact lookup_GetLabels_session sid

/-- C7: when creation succeeds and the subsequent start fails, `RunContainer`
returns the created handle (non-nil) together with the start error wrapped
with the `could not start container` context, so a non-nil error does not
imply that no container resource was created. -/
theorem C7_failed_start_returns_handle (c : DockerContainer)
    (start : DockerContainer → Except String Unit) (e : String)
    (h : start c = .error e) :
    RunContainer (.ok c) start =
      (some c, some (errorsWrap e "could not start container")) ∧
    (RunContainer (.ok c) start).1 ≠ none := by
  have hr : RunContainer (.ok c) start =
      (some c, some (errorsWrap e "could not start container")) := by
    show (match start c with
      | Except.error err => (some c, some (errorsWrap err "could not start container"))
      | Except.ok _ => (some c, none)) =
      (some c, some (errorsWrap e "could not start container"))
    rw [h]
  exact ⟨hr, by rw [hr]; simp⟩

/-- C7, witness: a start that fails with "boom" on a concrete handle. -/
theorem C7_failed_start_returns_handle_witness :
    RunContainer (.ok ⟨"cid", "sid", none⟩) (fun _ => .error "boom") =
      (some ⟨"cid", "sid", none⟩, some (errorsWrap "boom" "could not start container")) ∧
    (RunContainer (.ok ⟨"cid", "sid", none⟩) (fun _ => .error "boom")).1 ≠ none :=
  C7_failed_start_returns_handle ⟨"cid", "sid", none⟩ (fun _ => .error "boom") "boom" rfl

/-- C8: once a first inspect succeeds and populates the handle's cache, the
cache holds that result, every later inspect returns it unchanged (the handle
is not mutated again), and `GetPorts` and `GetIPAddress` return the same
values as on the first call, whatever the live container state `live2` has
become. -/
theorem C8_inspect_cache_coherent (c c' : DockerContainer) (j : ContainerJSON)
    (live1 live2 : Except String ContainerJSON)
    (h : inspectContainer c live1 = .ok (j, c')) :
    GetPorts c live1 = .ok (j.configExposedPorts, c') ∧
    GetIPAddress c live1 = .ok (j.ipAddress, c') ∧
    c'.raw = some j ∧
    inspectContainer c' live2 = .ok (j, c') ∧
    GetPorts c' live2 = .ok (j.configExposedPorts, c') ∧
    GetIPAddress c' live2 = .ok (j.ipAddress, c') := by
  have hraw : c'.raw = some j := by
    unfold inspectContainer at h
    cases hc : c.raw with
    | some r => rw [hc] at h; cases h; simp [hc]
    | none =>
      rw [hc] at h
      cases live1 with
      | error e => simp at h
      | ok jj => simp at h; rcases h with ⟨rfl, rfl⟩; rfl
  have hins : inspectContainer c' live2 = .ok (j, c') := by
    unfold inspectContainer
    rw [hraw]
  exact ⟨by unfold GetPorts; rw [h], by unfold GetIPAddress; rw [h], hraw, hins,
    by unfold GetPorts; rw [hins], by unfold GetIPAddress; rw [hins]⟩

/-- C8, witness: a handle whose cache is filled by a first inspect returning
`sampleInspect`; the later call is made while the live container is gone. -/
theorem C8_inspect_cache_coherent_witness :
    GetPorts ⟨"cid", "sid", none⟩ (.ok sampleInspect) =
      .ok (sampleInspect.configExposedPorts, ⟨"cid", "sid", some sampleInspect⟩) ∧
    GetIPAddress ⟨"cid", "sid", none⟩ (.ok sampleInspect) =
      .ok (sampleInspect.ipAddress, ⟨"cid", "sid", some sampleInspect⟩) ∧
    (⟨"cid", "sid", some sampleInspect⟩ : DockerContainer).raw = some sampleInspect ∧
    inspectContainer ⟨"cid", "sid", some sampleInspect⟩ (.error "container gone") =
      .ok (sampleInspect, ⟨"cid", "sid", some sampleInspect⟩) ∧
    GetPorts ⟨"cid", "sid", some sampleInspect⟩ (.error "container gone") =
      .ok (sampleInspect.configExposedPorts, ⟨"cid", "sid", some sampleInspect⟩) ∧
    GetIPAddress ⟨"cid", "sid", some sampleInspect⟩ (.error "container gone") =
      .ok (sampleInspect.ipAddress, ⟨"cid", "sid", some sampleInspect⟩) :=
  C8_inspect_cache_coherent ⟨"cid", "sid", none⟩ ⟨"cid", "sid", some sampleInspect⟩
    sampleInspect (.ok sampleInspect) (.error "container gone") rfl

/-- C9, counterexample: the claim says the environment list is the `key=value`
entries sorted by key, identical across calls with the same mapping.  The
loop at docker.go 144-146 emits the entries in Go's map iteration order,
which is unspecified: two iteration orders of the same two-entry mapping
yield different, unsorted lists. -/
theorem C9_env_not_sorted_counterexample :
    List.Perm [("b", "2"), ("a", "1")] [("a", "1"), ("b", "2")] ∧
    buildEnv [("b", "2"), ("a", "1")] = ["b=2", "a=1"] ∧
    buildEnv [("a", "1"), ("b", "2")] = ["a=1", "b=2"] ∧
    buildEnv [("b", "2"), ("a", "1")] ≠ buildEnv [("a", "1"), ("b", "2")] :=
  ⟨List.Perm.swap _ _ _, rfl, rfl, by decide⟩

/-- C9, amended: the environment list is the `key=value` entries in the map's
iteration order; it is deterministic only up to permutation — two iteration
orders of the same request mapping yield permuted, not identical, lists. -/
theorem C9_env_perm (l1 l2 : List (String × String)) (h : l1.Perm l2) :
    (buildEnv l1).Perm (buildEnv l2) := by
  unfold buildEnv
  exact h.map _

/-- C9, witness: the two iteration orders of the mapping `{a ↦ 1, b ↦ 2}`. -/
theorem C9_env_perm_witness :
    (buildEnv [("b", "2"), ("a", "1")]).Perm (buildEnv [("a", "1"), ("b", "2")]) :=
  C9_env_perm [("b", "2"), ("a", "1")] [("a", "1"), ("b", "2")] (List.Perm.swap _ _ _)

/-- C10: an empty command override leaves the config's command unset; a
non-empty override is split on single space characters into the argument
vector, so no produced argument ever contains a space and a single argument
containing a space cannot be expressed through the override. -/
theorem C10_cmd_split (req : ContainerRequest) (env : List (String × String))
    (sid : String) (eps : List PortKey) :
    (req.cmd = "" → (buildConfig req env sid eps).cmd = none) ∧
    (req.cmd ≠ "" → (buildConfig req env sid eps).cmd = some (goSplitSpace req.cmd)) ∧
    (∀ args : List String, (buildConfig req env sid eps).cmd = some args →
      ∀ arg ∈ args, ¬ ' ' ∈ arg.data) := by
  refine ⟨buildConfig_cmd_empty req env sid eps, buildConfig_cmd_nonempty req env sid eps, ?_⟩
  intro args hargs arg harg
  by_cases hc : req.cmd = ""
  · rw [buildConfig_cmd_empty req env sid eps hc] at hargs
    cases hargs
  · rw [buildConfig_cmd_nonempty req env sid eps hc] at hargs
    injection hargs with hargs
    subst hargs
    exact goSplitSpace_no_space req.cmd arg harg

/-- C10, witness: the override `"sh -c echo"` and the empty override. -/
theorem C10_cmd_split_witness :
    (buildConfig { cmd := "sh -c echo" } [] "sid" []).cmd = some (goSplitSpace "sh -c echo") ∧
    (buildConfig ({} : ContainerRequest) [] "sid" []).cmd = none :=
  ⟨(C10_cmd_split { cmd := "sh -c echo" } [] "sid" []).2.1 (by decide),
   (C10_cmd_split {} [] "sid" []).1 rfl⟩

end Testcontainer
